import Mathlib

/-
Shallow embedding of the redaction views module
(frontend_dev_assessment/apps/redaction/views.py).

Numeric values are modelled as exact rationals (ℚ).  Python dictionaries
holding coordinate data are modelled by structures whose fields record,
for each relevant key, whether the key is present and what kind of value
it holds, so that dictionary membership tests, `.get` defaults and the
behaviour of Python `float(...)` can be reproduced faithfully.
-/

namespace RedactionViews

/-- Value stored under one coordinate key of a raw request dictionary.
`missing` means the key is absent; `null` that it is present with value
`None`; `num` a numeric value; `strNum` a string that Python `float`
parses to a finite value; `strInf` a string it parses to a non-finite
value (such as "inf" or "nan"); `strBad` a string it rejects. -/
inductive RawVal
  | missing
  | null
  | num (q : ℚ)
  | strNum (q : ℚ)
  | strInf
  | strBad
  deriving DecidableEq, Repr

/-- Result of a successful Python `float(...)` call: a finite rational or
a non-finite value (inf, -inf, nan). -/
inductive PyFloat
  | fin (q : ℚ)
  | nonfinite
  deriving DecidableEq, Repr

/-- Python `float(value)` on a raw dictionary value: `None` (absent key or
explicit null) raises TypeError and an unparsable string raises ValueError,
both modelled as `none`; strings such as "inf" or "nan" succeed with a
non-finite result. -/
def pyFloatOf : RawVal → Option PyFloat
  | .missing => none
  | .null => none
  | .num q => some (.fin q)
  | .strNum q => some (.fin q)
  | .strInf => some .nonfinite
  | .strBad => none

/-- Python `key in dict` for a coordinate key. -/
def RawVal.present : RawVal → Bool
  | .missing => false
  | _ => true

/-- Raw rectangle dictionary: the values found under x, y, width, height. -/
structure RawRect where
  x : RawVal
  y : RawVal
  width : RawVal
  height : RawVal
  deriving DecidableEq, Repr

/-- Converted box as stored inside a redaction's coordinates JSON. -/
structure FloatBox where
  x : PyFloat
  y : PyFloat
  width : PyFloat
  height : PyFloat
  deriving DecidableEq, Repr

/-- convert_to_float_coords: converts the values under x, y, width, height,
in that order, with Python `float`; the first failing key raises ValueError
naming that key (modelled as `.error` carrying the key name). -/
def convert_to_float_coords (c : RawRect) : Except String FloatBox :=
  match pyFloatOf c.x with
  | none => .error "x"
  | some fx =>
    match pyFloatOf c.y with
    | none => .error "y"
    | some fy =>
      match pyFloatOf c.width with
      | none => .error "width"
      | some fw =>
        match pyFloatOf c.height with
        | none => .error "height"
        | some fh => .ok { x := fx, y := fy, width := fw, height := fh }

/-- Value of the page key in a coordinates dictionary: absent, present with
value None, or present with an integer. -/
inductive PageField
  | absent
  | null
  | val (n : Int)
  deriving DecidableEq, Repr

/-- Python `coordinates.get("page")`: None for an absent key or a null value. -/
def PageField.get : PageField → Option Int
  | .absent => none
  | .null => none
  | .val n => some n

/-- Python `"page" in dict`. -/
def PageField.present : PageField → Bool
  | .absent => false
  | _ => true

/-- The single_coords dictionary reaching the single-box validation path:
its four coordinate entries and its page entry. -/
structure SingleCoords where
  rect : RawRect
  page : PageField
  deriving DecidableEq, Repr

/-- The coordinates member of the request body, when it is a dictionary. -/
structure Coordinates where
  page : PageField
  x : RawVal
  y : RawVal
  width : RawVal
  height : RawVal
  selections : Option (List RawRect)
  deriving DecidableEq, Repr

/-- data.get("coordinates"): either not a dictionary or a dictionary. -/
inductive CoordPayload
  | notDict
  | dict (c : Coordinates)
  deriving DecidableEq, Repr

/-- Parsed JSON body of a create request: the type member and the
coordinates member. -/
structure CreateRequest where
  rtype : String
  payload : CoordPayload
  deriving DecidableEq, Repr

/-- Stored coordinates JSON of a persisted Redaction: the multi shape
holds a page key and a boxes list; the single shape holds the flat fields
with the page key present only when its value was not None. -/
inductive StoredCoords
  | multi (page : Option Int) (boxes : List FloatBox)
  | single (page : Option Int) (box : FloatBox)
  deriving DecidableEq, Repr

/-- A persisted Redaction row: its type tag and its coordinates JSON. -/
structure Redaction where
  rtype : String
  coords : StoredCoords
  deriving DecidableEq, Repr

/-- Boxes of a stored redaction under the canonical multi-box reading. -/
def Redaction.boxes : Redaction → List FloatBox
  | ⟨_, .multi _ bs⟩ => bs
  | ⟨_, .single _ b⟩ => [b]

/-- Outcome of the create view: a created redaction (with the is_multi_box
flag), an error notification response, or a 400 JSON error naming the
coordinate field whose conversion raised ValueError.  Only `created`
persists an entity. -/
inductive CreateResult
  | created (r : Redaction) (multi : Bool)
  | errorNote (msg : String)
  | jsonError (field : String)
  deriving DecidableEq, Repr

/-- Argument passed to validate_coordinates. -/
inductive PyCoordArg
  | notDict
  | dict (sc : SingleCoords)
  deriving DecidableEq, Repr

/-- validate_coordinates: returns the pair (is_valid, error_message);
a non-dictionary or a dictionary missing one of the four required keys
yields a False first component. -/
def validate_coordinates : PyCoordArg → Bool × Option String
  | .notDict => (false, some "Invalid coordinates format")
  | .dict sc =>
    if sc.rect.x.present ∧ sc.rect.y.present ∧ sc.rect.width.present ∧ sc.rect.height.present
    then (true, none)
    else (false, some "Missing coordinate fields")

/-- Python `len` of the pair returned by validate_coordinates: a 2-tuple. -/
def pyPairLen (_t : Bool × Option String) : Nat := 2

/-- Python truthiness of that pair: `bool(t)` for a tuple t is `len(t) > 0`. -/
def pyTruthyPair (t : Bool × Option String) : Bool := decide (0 < pyPairLen t)

/-- create_multi_box_redaction: converts each selection in order, silently
skipping those whose conversion raises ValueError, and creates one
redaction holding the page value and the collected boxes. -/
def create_multi_box_redaction (rtype : String) (page : Option Int)
    (selections : List RawRect) : Redaction :=
  let boxes := selections.foldl
    (fun acc sel =>
      match convert_to_float_coords sel with
      | .ok b => acc ++ [b]
      | .error _ => acc) []
  { rtype := rtype, coords := .multi page boxes }

/-- create_single_box_redaction: converts the four coordinate fields (the
page value, when not None, is stored alongside them); a failing field
aborts the creation with that field's ValueError. -/
def create_single_box_redaction (rtype : String) (sc : SingleCoords) :
    Except String Redaction :=
  match convert_to_float_coords sc.rect with
  | .ok b => .ok { rtype := rtype, coords := .single sc.page.get b }
  | .error f => .error f

/-- single_coords["page"] = coordinates.get("page"): the page key becomes
present, with a null value when the lookup returned None. -/
def injectPage : PageField → PageField
  | .val n => .val n
  | _ => .null

/-- Tail of redaction_create's single-box branch: the truthiness test of
the whole validation pair (always truthy, a pair having length 2), the
page-presence test, then creation; a ValueError from conversion becomes a
400 JSON error naming the field.  The page-membership test applied to a
non-dictionary raises TypeError, which the blanket exception handler turns
into the generic failure notification. -/
def finishSingle (rtype : String) (arg : PyCoordArg) : CreateResult :=
  let is_valid := validate_coordinates arg
  if pyTruthyPair is_valid = false then .errorNote "Invalid coordinates"
  else
    match arg with
    | .notDict => .errorNote "Redaction was not created."
    | .dict sc =>
      if sc.page.present = false then .errorNote "Missing page field in coordinates."
      else
        match create_single_box_redaction rtype sc with
        | .ok r => .created r false
        | .error f => .jsonError f

/-- redaction_create (the POST handler body after JSON parsing): the type
check, multi-box routing for type "text" with more than one selection, the
one-selection page injection, and the single-box path. -/
def redaction_create (req : CreateRequest) : CreateResult :=
  if ¬ (req.rtype = "text" ∨ req.rtype = "area") then
    .errorNote "Invalid redaction type"
  else
    match req.payload with
    | .notDict => finishSingle req.rtype .notDict
    | .dict c =>
      let selections := if req.rtype = "text" then c.selections else none
      match selections with
      | some sels =>
        if 1 < sels.length then
          .created (create_multi_box_redaction req.rtype c.page.get sels) true
        else
          match sels with
          | [s] => finishSingle req.rtype (.dict { rect := s, page := injectPage c.page })
          | _ => finishSingle req.rtype (.dict { rect := ⟨c.x, c.y, c.width, c.height⟩, page := c.page })
      | none => finishSingle req.rtype (.dict { rect := ⟨c.x, c.y, c.width, c.height⟩, page := c.page })

/-- Stored box as read back from the coordinates JSON by the download
view: each coordinate key may be absent; values are finite rationals. -/
structure StoredBox where
  x : Option ℚ
  y : Option ℚ
  width : Option ℚ
  height : Option ℚ
  deriving DecidableEq, Repr

/-- extract_pdf_coords: web-to-PDF coordinate transform.  Each field is
looked up with Python `coords.get(key, 0)`, so an absent field defaults
to 0; the y output is page_height - y - height. -/
def extract_pdf_coords (coords : StoredBox) (page_height : ℚ) : ℚ × ℚ × ℚ × ℚ :=
  let x := coords.x.getD 0
  let y := page_height - coords.y.getD 0 - coords.height.getD 0
  let width := coords.width.getD 0
  let height := coords.height.getD 0
  (x, y, width, height)

/-- PDF page annotation dictionary: subtype, rectangle, stroke colour /C,
interior colour /IC, and border width /BS /W. -/
structure Annot where
  subtype : String
  rect : ℚ × ℚ × ℚ × ℚ
  strokeColor : ℚ × ℚ × ℚ
  interiorColor : ℚ × ℚ × ℚ
  borderWidth : ℚ
  deriving DecidableEq, Repr

/-- PDF page: media-box height plus the /Annots array, which is absent
(`none`) until something creates it. -/
structure PdfPage where
  height : ℚ
  annots : Option (List Annot)
  deriving DecidableEq, Repr

/-- Builds the square annotation dictionary of the source's annotation
helper — /Type /Annot, /Subtype /Square, /Rect [x, y, x+width, y+height],
black /C and /IC, zero-width border — and appends it to the page's /Annots
array, creating that array when the key is absent. -/
def add_pdf_redaction_annot (page : PdfPage) (x y width height : ℚ) : PdfPage :=
  let redaction_annot : Annot :=
    { subtype := "/Square",
      rect := (x, y, x + width, y + height),
      strokeColor := (0, 0, 0),
      interiorColor := (0, 0, 0),
      borderWidth := 0 }
  { page with annots := some (page.annots.getD [] ++ [redaction_annot]) }

/-- Stored coordinates of one redaction as seen by the download view: the
multi shape (page and boxes keys) or the single flat shape. -/
inductive WCoords
  | multi (page : Option Int) (boxes : List StoredBox)
  | single (page : Option Int) (box : StoredBox)
  deriving DecidableEq, Repr

/-- The coordinates__page lookup used by the page filter. -/
def WCoords.pageOf : WCoords → Option Int
  | .multi p _ => p
  | .single p _ => p

/-- Body of the inner box loop: unpack extract_pdf_coords and append one
annotation. -/
def apply_box (page_height : ℚ) (pg : PdfPage) (box : StoredBox) : PdfPage :=
  add_pdf_redaction_annot pg (extract_pdf_coords box page_height).1
    (extract_pdf_coords box page_height).2.1
    (extract_pdf_coords box page_height).2.2.1
    (extract_pdf_coords box page_height).2.2.2

/-- Per-redaction body of the download loop: a multi shape with a
non-empty boxes list annotates each box in order; otherwise
extract_pdf_coords runs on the redaction's own coordinates dictionary.
For a multi shape with an empty boxes list that dictionary has no
x/y/width/height keys, so every lookup defaults to 0. -/
def apply_redaction (pg : PdfPage) (c : WCoords) (page_height : ℚ) : PdfPage :=
  match c with
  | .multi _ boxes =>
    if boxes.isEmpty then apply_box page_height pg ⟨none, none, none, none⟩
    else boxes.foldl (apply_box page_height) pg
  | .single _ box => apply_box page_height pg box

/-- One iteration of the page loop: compute the page height from the media
box, select the redactions whose stored page equals page_num + 1, and
apply each in order. -/
def renderPage (reds : List WCoords) (pg : PdfPage) (page_num : Nat) : PdfPage :=
  let page_height := pg.height
  let page_reds := reds.filter (fun r => decide (r.pageOf = some ((page_num : Int) + 1)))
  page_reds.foldl (fun acc r => apply_redaction acc r page_height) pg

/-- The page loop of document_download_redacted, carrying the 0-indexed
page counter. -/
def renderPages (reds : List WCoords) : List PdfPage → Nat → List PdfPage
  | [], _ => []
  | pg :: rest, page_num => renderPage reds pg page_num :: renderPages reds rest (page_num + 1)

/-- document_download_redacted: processes every source page in order,
adding the annotations of the redactions filtered to that page, and
returns the output pages. -/
def document_download_redacted (pages : List PdfPage) (reds : List WCoords) : List PdfPage :=
  renderPages reds pages 0

/-- Square annotation at the given PDF-space box, as the annotation helper
constructs it. -/
def sq_annot (x y width height : ℚ) : Annot :=
  { subtype := "/Square",
    rect := (x, y, x + width, y + height),
    strokeColor := (0, 0, 0),
    interiorColor := (0, 0, 0),
    borderWidth := 0 }

/-- Square annotation from a packed (x, y, width, height) tuple. -/
def sq_of (t : ℚ × ℚ × ℚ × ℚ) : Annot := sq_annot t.1 t.2.1 t.2.2.1 t.2.2.2

/-- Annotations one redaction contributes to its page, in box order. -/
def annots_for (c : WCoords) (page_height : ℚ) : List Annot :=
  match c with
  | .multi _ boxes =>
    if boxes.isEmpty then [sq_of (extract_pdf_coords ⟨none, none, none, none⟩ page_height)]
    else boxes.map (fun b => sq_of (extract_pdf_coords b page_height))
  | .single _ box => [sq_of (extract_pdf_coords box page_height)]

lemma apply_box_eq (ph : ℚ) (pg : PdfPage) (b : StoredBox) :
    apply_box ph pg b
      = { pg with annots := some (pg.annots.getD [] ++ [sq_of (extract_pdf_coords b ph)]) } := rfl

lemma boxes_foldl_eq (ph : ℚ) (boxes : List StoredBox) :
    ∀ pg : PdfPage, boxes ≠ [] →
      boxes.foldl (apply_box ph) pg
        = { pg with annots := some (pg.annots.getD [] ++ boxes.map (fun b => sq_of (extract_pdf_coords b ph))) } := by
  induction boxes with
  | nil => intro pg h; exact absurd rfl h
  | cons b bs ih =>
    intro pg _
    cases bs with
    | nil => simp [apply_box_eq]
    | cons b2 bs2 =>
      rw [List.foldl_cons, ih (apply_box ph pg b) (by simp)]
      simp [apply_box_eq]

lemma apply_redaction_eq (pg : PdfPage) (c : WCoords) (ph : ℚ) :
    apply_redaction pg c ph
      = { pg with annots := some (pg.annots.getD [] ++ annots_for c ph) } := by
  cases c with
  | multi p boxes =>
    cases boxes with
    | nil => simp [apply_redaction, annots_for, apply_box_eq]
    | cons b bs =>
      rw [show apply_redaction pg (.multi p (b :: bs)) ph = (b :: bs).foldl (apply_box ph) pg from rfl]
      rw [boxes_foldl_eq ph (b :: bs) pg (by simp)]
      simp [annots_for]
  | single p box => simp [apply_redaction, annots_for, apply_box_eq]

lemma reds_foldl_eq (ph : ℚ) (l : List WCoords) :
    ∀ pg : PdfPage,
      l.foldl (fun acc r => apply_redaction acc r ph) pg
        = if l.isEmpty then pg
          else { pg with annots := some (pg.annots.getD [] ++ l.flatMap (fun r => annots_for r ph)) } := by
  induction l with
  | nil => intro pg; simp
  | cons r rs ih =>
    intro pg
    rw [List.foldl_cons, ih (apply_redaction pg r ph)]
    cases hrs : rs.isEmpty
    · simp [hrs, apply_redaction_eq]
    · simp [hrs, apply_redaction_eq, List.isEmpty_iff.mp hrs]

lemma renderPage_eq (reds : List WCoords) (pg : PdfPage) (p : Nat) :
    renderPage reds pg p
      = (if (reds.filter (fun r => decide (r.pageOf = some ((p : Int) + 1)))).isEmpty then pg
         else { pg with annots := some (pg.annots.getD []
           ++ (reds.filter (fun r => decide (r.pageOf = some ((p : Int) + 1)))).flatMap
                (fun r => annots_for r pg.height)) }) := by
  unfold renderPage
  exact reds_foldl_eq pg.height _ pg

lemma renderPages_length (reds : List WCoords) (l : List PdfPage) :
    ∀ k : Nat, (renderPages reds l k).length = l.length := by
  induction l with
  | nil => intro k; rfl
  | cons pg rest ih => intro k; simp [renderPages, ih]

lemma renderPages_getElem (reds : List WCoords) (l : List PdfPage) :
    ∀ k i : Nat, (renderPages reds l k)[i]? = (l[i]?).map (fun pg => renderPage reds pg (k + i)) := by
  induction l with
  | nil => intro k i; simp [renderPages]
  | cons pg rest ih =>
    intro k i
    cases i with
    | zero => simp [renderPages]
    | succ j =>
      simp only [renderPages, List.getElem?_cons_succ]
      rw [ih (k + 1) j]
      have hkj : k + 1 + j = k + (j + 1) := by omega
      rw [hkj]

lemma renderPage_no_reds (pg : PdfPage) (p : Nat) : renderPage [] pg p = pg := rfl

lemma renderPages_no_reds (l : List PdfPage) : ∀ k : Nat, renderPages [] l k = l := by
  induction l with
  | nil => intro k; rfl
  | cons pg rest ih => intro k; simp [renderPages, renderPage_no_reds, ih]

/-- C2: for every UI-space rectangle with fields x, y, width, height and
every page height, the coordinate transform returns exactly
(x, page_height - y - height, width, height) with no rounding (values are
exact rationals in this model); in particular the transform of
x 100, y 200, width 150, height 20 at page height 792 is
(100, 572, 150, 20). -/
theorem transform_formula (x y w h ph : ℚ) :
    extract_pdf_coords ⟨some x, some y, some w, some h⟩ ph = (x, ph - y - h, w, h) ∧
    extract_pdf_coords ⟨some 100, some 200, some 150, some 20⟩ 792 = (100, 572, 150, 20) := by
  refine ⟨rfl, ?_⟩
  simp only [extract_pdf_coords, Option.getD_some]
  norm_num

/-- C3: for every UI rectangle and every page height ph greater than zero,
re-deriving the UI-space top-left y from the transformed output as
ph - pdf_y - height returns the original y exactly. -/
theorem transform_round_trip (x y w h ph : ℚ) (_hph : 0 < ph) :
    ph - (extract_pdf_coords ⟨some x, some y, some w, some h⟩ ph).2.1
       - (extract_pdf_coords ⟨some x, some y, some w, some h⟩ ph).2.2.2 = y := by
  simp only [extract_pdf_coords, Option.getD_some]
  ring

/-- Witness for C3 at the rectangle (100, 200, 150, 20) and page height 792. -/
theorem transform_round_trip_witness :
    (0 : ℚ) < 792 ∧
    792 - (extract_pdf_coords ⟨some 100, some 200, some 150, some 20⟩ 792).2.1
        - (extract_pdf_coords ⟨some 100, some 200, some 150, some 20⟩ 792).2.2.2 = 200 :=
  ⟨by norm_num, transform_round_trip 100 200 150 20 792 (by norm_num)⟩

/-- C10: the PDF-space conversion used by the download view is total over
stored boxes: a box behaves exactly like the box whose absent fields are
replaced by 0, the fully-absent box maps to (0, page_height, 0, 0), and
rendering a redaction holding such a box yields the corresponding
zero-coordinate annotation instead of failing. -/
theorem extract_total_missing_defaults_zero (b : StoredBox) (ph : ℚ) :
    extract_pdf_coords b ph
      = extract_pdf_coords ⟨some (b.x.getD 0), some (b.y.getD 0),
                            some (b.width.getD 0), some (b.height.getD 0)⟩ ph ∧
    extract_pdf_coords ⟨none, none, none, none⟩ ph = (0, ph, 0, 0) ∧
    apply_redaction ⟨ph, none⟩ (.single none ⟨none, none, none, none⟩) ph
      = ⟨ph, some [sq_annot 0 ph 0 0]⟩ := by
  refine ⟨rfl, ?_, ?_⟩
  · simp [extract_pdf_coords]
  · simp [apply_redaction_eq, annots_for, sq_of, extract_pdf_coords, sq_annot]

/-- C7: the download view attaches each redaction's annotations to exactly
the 0-indexed output page p whose 1-indexed stored page equals p + 1; the
output has the same page count, every page keeps its order, height and
existing annotations (a page with no matching redaction is returned
unchanged, so no /Annots entry is created for it), and rendering with zero
redactions returns the source pages unchanged. -/
theorem annot_writer_page_mapping (pages : List PdfPage) (reds : List WCoords) :
    (document_download_redacted pages reds).length = pages.length ∧
    (∀ p : Nat, (document_download_redacted pages reds)[p]? = (pages[p]?).map (fun pg =>
      if (reds.filter (fun r => decide (WCoords.pageOf r = some ((p : Int) + 1)))).isEmpty then pg
      else { pg with annots := some (pg.annots.getD []
        ++ (reds.filter (fun r => decide (WCoords.pageOf r = some ((p : Int) + 1)))).flatMap
             (fun r => annots_for r pg.height)) })) ∧
    document_download_redacted pages [] = pages := by
  refine ⟨renderPages_length reds pages 0, ?_, renderPages_no_reds pages 0⟩
  intro p
  rw [document_download_redacted, renderPages_getElem reds pages 0 p]
  cases pages[p]? with
  | none => rfl
  | some pg =>
    simp only [Option.map_some', Nat.zero_add]
    rw [renderPage_eq]

/-- C8: every annotation the writer appends for a transformed box
(x, y, width, height) is a square-subtype annotation with rectangle
exactly [x, y, x + width, y + height], black stroke colour, black interior
colour and zero border width, appended at the end of the page's annotation
array; within one redaction the annotations follow box order (and the page
loop of C7 concatenates redactions in stored order). -/
theorem annot_shape_and_order :
    (∀ (pg : PdfPage) (x y w h : ℚ),
      add_pdf_redaction_annot pg x y w h
        = { pg with annots := some (pg.annots.getD [] ++ [sq_annot x y w h]) }) ∧
    (∀ x y w h : ℚ,
      sq_annot x y w h
        = { subtype := "/Square", rect := (x, y, x + w, y + h),
            strokeColor := (0, 0, 0), interiorColor := (0, 0, 0), borderWidth := 0 }) ∧
    (∀ (pg : PdfPage) (c : WCoords) (ph : ℚ),
      apply_redaction pg c ph
        = { pg with annots := some (pg.annots.getD [] ++ annots_for c ph) }) ∧
    (∀ (p : Option Int) (b : StoredBox) (bs : List StoredBox) (ph : ℚ),
      annots_for (.multi p (b :: bs)) ph
        = (b :: bs).map (fun bb => sq_of (extract_pdf_coords bb ph))) ∧
    (∀ (p : Option Int) (b : StoredBox) (ph : ℚ),
      annots_for (.single p b) ph = [sq_of (extract_pdf_coords b ph)]) := by
  refine ⟨fun pg x y w h => rfl, fun x y w h => rfl, apply_redaction_eq, ?_, fun p b ph => rfl⟩
  intro p b bs ph
  simp [annots_for]

lemma convert_foldl_eq (sels : List RawRect) :
    ∀ acc : List FloatBox,
      sels.foldl (fun acc sel =>
        match convert_to_float_coords sel with
        | .ok b => acc ++ [b]
        | .error _ => acc) acc
      = acc ++ sels.filterMap (fun s => (convert_to_float_coords s).toOption) := by
  induction sels with
  | nil => intro acc; simp
  | cons s rest ih =>
    intro acc
    cases hc : convert_to_float_coords s with
    | ok b =>
      have hopt : (convert_to_float_coords s).toOption = some b := by rw [hc]; rfl
      simp only [List.foldl_cons, List.filterMap_cons, hc, hopt]
      rw [ih (acc ++ [b])]
      simp
      rfl
    | error f =>
      have hopt : (convert_to_float_coords s).toOption = none := by rw [hc]; rfl
      simp only [List.foldl_cons, List.filterMap_cons, hc, hopt]
      exact ih acc

lemma create_multi_box_eq (rtype : String) (page : Option Int) (sels : List RawRect) :
    create_multi_box_redaction rtype page sels
      = { rtype := rtype,
          coords := .multi page (sels.filterMap (fun s => (convert_to_float_coords s).toOption)) } := by
  simp only [create_multi_box_redaction]
  rw [convert_foldl_eq sels []]
  rfl

lemma redaction_create_text_dict (c : Coordinates) :
    redaction_create ⟨"text", .dict c⟩
      = match c.selections with
        | some sels =>
          if 1 < sels.length then
            .created (create_multi_box_redaction "text" c.page.get sels) true
          else
            match sels with
            | [s] => finishSingle "text" (.dict ⟨s, injectPage c.page⟩)
            | _ => finishSingle "text" (.dict ⟨⟨c.x, c.y, c.width, c.height⟩, c.page⟩)
        | none => finishSingle "text" (.dict ⟨⟨c.x, c.y, c.width, c.height⟩, c.page⟩) := by
  obtain ⟨pg, cx, cy, cw, ch, csel⟩ := c
  cases csel with
  | none => rfl
  | some sels =>
    cases sels with
    | nil => rfl
    | cons a rest =>
      cases rest with
      | nil => rfl
      | cons b rest2 => rfl

lemma redaction_create_area_dict (c : Coordinates) :
    redaction_create ⟨"area", .dict c⟩
      = finishSingle "area" (.dict ⟨⟨c.x, c.y, c.width, c.height⟩, c.page⟩) := rfl

lemma finishSingle_missing_page (rtype : String) (r : RawRect) :
    finishSingle rtype (.dict ⟨r, .absent⟩) = .errorNote "Missing page field in coordinates." := rfl

lemma finishSingle_dict_eq (rtype : String) (sc : SingleCoords) (hpres : sc.page.present = true) :
    finishSingle rtype (.dict sc)
      = match create_single_box_redaction rtype sc with
        | .ok r => .created r false
        | .error f => .jsonError f := by
  simp [finishSingle, pyTruthyPair, pyPairLen, hpres]

lemma finishSingle_conv_error (rtype : String) (sc : SingleCoords) (f : String)
    (hpres : sc.page.present = true)
    (hconv : convert_to_float_coords sc.rect = .error f) :
    finishSingle rtype (.dict sc) = .jsonError f := by
  rw [finishSingle_dict_eq rtype sc hpres]
  simp [create_single_box_redaction, hconv]

/-- C9: validate_coordinates always returns the pair (is_valid,
error_message) — a Python 2-tuple, which is truthy whatever it holds —
and redaction_create tests the truthiness of the whole pair, so the
branch rejecting with the "Invalid coordinates" message is unreachable
for every request. -/
theorem invalid_coordinates_branch_unreachable :
    (∀ arg : PyCoordArg, pyTruthyPair (validate_coordinates arg) = true) ∧
    (∀ req : CreateRequest,
      decide (redaction_create req = CreateResult.errorNote "Invalid coordinates") = false) := by
  have hfin : ∀ (rtype : String) (arg : PyCoordArg),
      finishSingle rtype arg ≠ CreateResult.errorNote "Invalid coordinates" := by
    intro rtype arg
    cases arg with
    | notDict =>
      intro h
      exact absurd (CreateResult.errorNote.inj h) (by decide)
    | dict sc =>
      obtain ⟨r, pgf⟩ := sc
      cases pgf with
      | absent =>
        rw [finishSingle_missing_page]
        intro h
        exact absurd (CreateResult.errorNote.inj h) (by decide)
      | null =>
        rw [finishSingle_dict_eq rtype ⟨r, .null⟩ rfl]
        cases create_single_box_redaction rtype ⟨r, .null⟩ <;> simp
      | val n =>
        rw [finishSingle_dict_eq rtype ⟨r, .val n⟩ rfl]
        cases create_single_box_redaction rtype ⟨r, .val n⟩ <;> simp
  refine ⟨fun _ => rfl, fun req => decide_eq_false ?_⟩
  obtain ⟨rtype, payload⟩ := req
  cases payload with
  | notDict =>
    simp only [redaction_create]
    split
    · intro h
      exact absurd (CreateResult.errorNote.inj h) (by decide)
    · exact hfin _ _
  | dict c =>
    simp only [redaction_create]
    split
    · intro h
      exact absurd (CreateResult.errorNote.inj h) (by decide)
    · split
      · split
        · simp
        · split
          · exact hfin _ _
          · exact hfin _ _
      · exact hfin _ _

/-- C1 counterexample: a request of type "area" carrying two raw
rectangles in selections (both individually valid) does not build a
multi-box redaction at all — the selections list is read only for type
"text", so the request falls into the single-box path, whose conversion
of the flat coordinates fails on x with a 400 JSON error. -/
theorem area_multi_selection_counterexample :
    redaction_create ⟨"area", .dict ⟨.val 1, .missing, .missing, .missing, .missing,
        some [⟨.num 1, .num 2, .num 3, .num 4⟩, ⟨.num 5, .num 6, .num 7, .num 8⟩]⟩⟩
      = .jsonError "x" := by decide

/-- C1 (amended): for redaction type "text" only, a request carrying more
than one raw rectangle in selections — of which more than one passes
per-field validation — builds exactly one multi-box redaction whose boxes
are precisely the rectangles whose conversion succeeds, in supplied
order; each failing rectangle is silently dropped.  For type "area" the
selections list is ignored (see the counterexample). -/
theorem text_multi_partial_acceptance (page : PageField) (sels : List RawRect)
    (x y w h : RawVal) (hlen : 1 < sels.length)
    (_hvalid : 1 < (sels.filterMap (fun s => (convert_to_float_coords s).toOption)).length) :
    redaction_create ⟨"text", .dict ⟨page, x, y, w, h, some sels⟩⟩
      = .created ⟨"text", .multi page.get
          (sels.filterMap (fun s => (convert_to_float_coords s).toOption))⟩ true := by
  rw [redaction_create_text_dict]
  simp only [if_pos hlen]
  rw [create_multi_box_eq]

/-- Witness for C1 (amended): type "text", page 2, three rectangles where
the second has an unparsable height — the result is one redaction holding
exactly the first and third boxes. -/
theorem text_multi_partial_acceptance_witness :
    redaction_create ⟨"text", .dict ⟨.val 2, .missing, .missing, .missing, .missing,
        some [⟨.num 10, .num 20, .num 30, .num 40⟩,
              ⟨.num 1, .num 2, .num 3, .strBad⟩,
              ⟨.num 5, .num 6, .num 7, .num 8⟩]⟩⟩
      = .created ⟨"text", .multi (some 2)
          [⟨.fin 10, .fin 20, .fin 30, .fin 40⟩, ⟨.fin 5, .fin 6, .fin 7, .fin 8⟩]⟩ true := by
  have hres := text_multi_partial_acceptance (.val 2)
      [⟨.num 10, .num 20, .num 30, .num 40⟩,
       ⟨.num 1, .num 2, .num 3, .strBad⟩,
       ⟨.num 5, .num 6, .num 7, .num 8⟩]
      .missing .missing .missing .missing (by decide) (by decide)
  exact hres.trans (by decide)

/-- C4: the code can create a Redaction with zero boxes, contradicting the
non-empty invariant — a "text" request with two selections that both fail
conversion creates a multi-box redaction whose boxes list is empty. -/
theorem zero_box_redaction_created :
    redaction_create ⟨"text", .dict ⟨.val 2, .missing, .missing, .missing, .missing,
        some [⟨.strBad, .num 1, .num 1, .num 1⟩, ⟨.strBad, .num 2, .num 2, .num 2⟩]⟩⟩
      = .created ⟨"text", .multi (some 2) []⟩ true ∧
    (Redaction.boxes ⟨"text", .multi (some 2) []⟩).length = 0 :=
  ⟨by decide, rfl⟩

/-- C5 counterexample: a "text" request with two valid selections and no
page field does not produce the MissingPage validation error — a redaction
with a null page is created. -/
theorem missing_page_multi_counterexample :
    redaction_create ⟨"text", .dict ⟨.absent, .missing, .missing, .missing, .missing,
        some [⟨.num 1, .num 2, .num 3, .num 4⟩, ⟨.num 5, .num 6, .num 7, .num 8⟩]⟩⟩
      = .created ⟨"text", .multi none
          [⟨.fin 1, .fin 2, .fin 3, .fin 4⟩, ⟨.fin 5, .fin 6, .fin 7, .fin 8⟩]⟩ true := by decide

/-- C5 (amended): the MissingPage validation error is returned, and no
entity created, exactly when the request is processed as a flat single
rectangle — type "area" (whatever selections holds), or type "text" with
no usable selections list (absent or empty) — and the coordinates
dictionary has no page key.  With a multi-element selections list the
builder instead creates a redaction whose page is null. -/
theorem missing_page_flat_single (rtype : String) (c : Coordinates)
    (hty : rtype = "text" ∨ rtype = "area")
    (hpage : c.page = PageField.absent)
    (hsel : (if rtype = "text" then c.selections else none) = none ∨
            (if rtype = "text" then c.selections else none) = some []) :
    redaction_create ⟨rtype, .dict c⟩ = .errorNote "Missing page field in coordinates." := by
  obtain ⟨pg, cx, cy, cw, ch, csel⟩ := c
  cases hpage
  rcases hty with hty | hty <;> subst hty
  · rw [if_pos rfl] at hsel
    rcases hsel with hsel | hsel <;> subst hsel
    · exact (redaction_create_text_dict ⟨.absent, cx, cy, cw, ch, none⟩).trans
        (finishSingle_missing_page "text" ⟨cx, cy, cw, ch⟩)
    · exact (redaction_create_text_dict ⟨.absent, cx, cy, cw, ch, some []⟩).trans
        (finishSingle_missing_page "text" ⟨cx, cy, cw, ch⟩)
  · exact (redaction_create_area_dict ⟨.absent, cx, cy, cw, ch, csel⟩).trans
      (finishSingle_missing_page "area" ⟨cx, cy, cw, ch⟩)

/-- Witness for C5 (amended): an "area" request whose coordinates carry
the four fields but no page key yields the MissingPage error. -/
theorem missing_page_flat_single_witness :
    redaction_create ⟨"area", .dict ⟨.absent, .num 1, .num 2, .num 3, .num 4, none⟩⟩
      = .errorNote "Missing page field in coordinates." :=
  missing_page_flat_single "area" ⟨.absent, .num 1, .num 2, .num 3, .num 4, none⟩
    (Or.inr rfl) rfl (Or.inl rfl)

/-- C6 counterexample: a single-rectangle "area" request whose width is
the string "inf" — which Python float parses to a non-finite value — is
not rejected: the entity is created with a non-finite width, so a field
that does not parse to a finite float is not fatal. -/
theorem nonfinite_accepted_counterexample :
    redaction_create ⟨"area", .dict ⟨.val 1, .num 1, .num 2, .strInf, .num 4, none⟩⟩
      = .created ⟨"area", .single (some 1) ⟨.fin 1, .fin 2, .nonfinite, .fin 4⟩⟩ false := by decide

/-- C6 (amended): for a request processed as a flat single rectangle with
a page key present, a field that is missing, null, or fails Python float
parsing is fatal: the view returns a 400 error naming the first failing
field (in the order x, y, width, height) and no entity is created.  A
field parsing to a non-finite float, however, is accepted (see the
counterexample). -/
theorem single_box_field_failure_fatal (rtype : String) (c : Coordinates) (f : String)
    (hty : rtype = "text" ∨ rtype = "area")
    (hsel : (if rtype = "text" then c.selections else none) = none)
    (hpres : c.page.present = true)
    (hconv : convert_to_float_coords ⟨c.x, c.y, c.width, c.height⟩ = .error f) :
    redaction_create ⟨rtype, .dict c⟩ = .jsonError f := by
  obtain ⟨pg, cx, cy, cw, ch, csel⟩ := c
  rcases hty with hty | hty <;> subst hty
  · rw [if_pos rfl] at hsel
    subst hsel
    exact (redaction_create_text_dict ⟨pg, cx, cy, cw, ch, none⟩).trans
      (finishSingle_conv_error "text" ⟨⟨cx, cy, cw, ch⟩, pg⟩ f hpres hconv)
  · exact (redaction_create_area_dict ⟨pg, cx, cy, cw, ch, csel⟩).trans
      (finishSingle_conv_error "area" ⟨⟨cx, cy, cw, ch⟩, pg⟩ f hpres hconv)

/-- Witness for C6 (amended): type "area", page 1, one rectangle missing
width yields the 400 error naming "width" (the spec's InvalidField
example). -/
theorem single_box_field_failure_fatal_witness :
    redaction_create ⟨"area", .dict ⟨.val 1, .num 100, .num 200, .missing, .num 20, none⟩⟩
      = .jsonError "width" :=
  single_box_field_failure_fatal "area"
    ⟨.val 1, .num 100, .num 200, .missing, .num 20, none⟩ "width"
    (Or.inr rfl) rfl rfl rfl

end RedactionViews
